import Mathlib

/-!
# Verification of the banana_art backend (src/backend)

A shallow embedding of the generation-orchestration core of the backend:
the data model (`models.py`), the input composer, the response normalizer
and the generation lifecycle (`main.py`).  Pure phases of the Python code
become Lean functions; the database session and the artifact store become
an explicit `SysState` record threaded through the endpoint functions;
exceptions of the external model call are modelled by `Except`/`Option`
parameters.  File-system writes are modelled by lists of stored references.
-/

namespace BananaArt

/-- Whether `pat` occurs at the head of `s` (over character lists). -/
def matchHead : List Char → List Char → Bool
  | [], _ => true
  | _ :: _, [] => false
  | p :: ps, c :: cs => p == c && matchHead ps cs

/-- Whether `pat` occurs anywhere in `s` (over character lists). -/
def findSub (pat : List Char) : List Char → Bool
  | [] => pat.isEmpty
  | c :: cs => matchHead pat (c :: cs) || findSub pat cs

/-- Python's substring test `pat in s` (`str.__contains__`). -/
def strContains (s pat : String) : Bool :=
  findSub pat.toList s.toList

/-- Python's `s.endswith(suf)`. -/
def strEndsWith (s suf : String) : Bool :=
  matchHead suf.toList.reverse s.toList.reverse

/-- Python's `s.lstrip("/")`: drop every leading `'/'` character. -/
def lstripSlash (s : String) : String :=
  ⟨s.toList.dropWhile (fun c => c = '/')⟩

/-- `os.path.join("backend", filepath.lstrip("/"))` as used throughout
`main.py` to turn a stored `/static/...` reference into a local path. -/
def localPath (filepath : String) : String :=
  "backend/" ++ lstripSlash filepath

/-- `models.UploadedImage` (the spec's StoredImage): one uploaded binary.
`filepath` is the storage reference (e.g. `/static/uploads/<uuid>.png`). -/
structure UploadedImage where
  id : Nat
  filename : String
  filepath : String
  isHidden : Bool := false
deriving DecidableEq, Repr

/-- `models.Template`: a reusable generation preset with reference images. -/
structure Template where
  id : Nat
  name : String
  promptTemplate : String
  aspectRatio : String
  referenceImages : List UploadedImage
deriving DecidableEq, Repr

/-- `models.Generation`: one request-to-model lifecycle instance.
`outputImagePath = none` is the pending state; the string `"error"`
is the failure sentinel. -/
structure Generation where
  id : Nat
  prompt : String
  aspectRatio : String
  sourceImageId : Option Nat := none
  sourceImages : List UploadedImage := []
  outputImagePath : Option String := none
deriving DecidableEq, Repr

/-- The binary payload of a model response part (`part.inline_data`). -/
structure InlineData where
  mimeType : String
  data : List Nat
deriving DecidableEq, Repr

/-- One part of a model response.  The Python code tests `part.text`
(truthiness: empty string counts as absent) and `part.inline_data`
independently, so both fields coexist here. -/
structure Part where
  text : String := ""
  inlineData : Option InlineData := none
deriving DecidableEq, Repr

/-- A model response: its `parts` list and the aggregate `response.text`
accessor used as a fallback (`none` models the accessor raising). -/
structure Response where
  parts : List Part
  textAttr : Option String := none
deriving DecidableEq, Repr

/-- The artifact the normalizer chooses: an image with an extension and
bytes, or a text file with the accumulated text. -/
inductive Artifact where
  | image (ext : String) (data : List Nat)
  | textFile (content : String)
deriving DecidableEq, Repr

/-- Extension selection of `generate_image_task` (main.py lines 99-102):
start from `.png`, switch to `.jpg` when the mime type contains
`"jpeg"` or `"jpg"`, then to `.webp` when it contains `"webp"`
(two independent `if` statements, in that order). -/
def extForMime (mime : String) : String :=
  let ext := ".png"
  let ext := if strContains mime "jpeg" || strContains mime "jpg" then ".jpg" else ext
  let ext := if strContains mime "webp" then ".webp" else ext
  ext

/-- One iteration of the part loop of `generate_image_task`
(main.py lines 91-111).  The accumulator is
`(output_path_for_db, generated_text)`, with the chosen artifact standing
in for the written file and its path. -/
def processPart (acc : Option Artifact × String) (p : Part) : Option Artifact × String :=
  let acc := if p.text ≠ "" then (acc.1, acc.2 ++ p.text) else acc
  match p.inlineData with
  | some d => (some (Artifact.image (extForMime d.mimeType) d.data), acc.2)
  | none => acc

/-- The part loop of main.py lines 90-111: fold `processPart` over the
parts, starting from no output and empty accumulated text. -/
def scanParts (ps : List Part) : Option Artifact × String :=
  ps.foldl processPart (none, "")

/-- The response-normalization phase of `generate_image_task`
(main.py lines 86-135): scan the parts, then fall back to accumulated
text, then to `response.text`, and return `none` when nothing usable
was produced (the caller then writes the failure sentinel). -/
def normalize (r : Response) : Option Artifact :=
  match scanParts r.parts with
  | (some a, _) => some a
  | (none, txt) =>
    if txt ≠ "" then some (Artifact.textFile txt)
    else
      match r.textAttr with
      | some t => if t ≠ "" then some (Artifact.textFile t) else none
      | none => none

/-- The database reference stored for an artifact written with the random
name `name`: `/static/generated/gen_<name><ext>` (main.py lines 104-111
and 115-119). -/
def storedRef (name : String) : Artifact → String
  | Artifact.image ext _ => "/static/generated/gen_" ++ name ++ ext
  | Artifact.textFile _ => "/static/generated/gen_" ++ name ++ ".txt"

/-- The inline data of the last part carrying any, if one exists; this is
what the part loop leaves in `output_path_for_db`. -/
def lastInline : List Part → Option InlineData
  | [] => none
  | p :: ps =>
    match lastInline ps with
    | some d => some d
    | none => p.inlineData

/-! ## Input composer -/

/-- One part of the content sequence sent to the model:
the leading prompt string or an uploaded file handle (identified here by
the local path passed to `genai.upload_file`). -/
inductive ContentPart where
  | text (s : String)
  | file (path : String)
deriving DecidableEq, Repr

/-- The content-building phase of `generate_image_task`
(main.py lines 72-83): a single leading text part — the prompt
concatenated with the aspect-ratio hint — followed by one uploaded-file
part per path whose upload succeeds; a failing upload is logged and
skipped (`upload p = none` models `genai.upload_file` raising). -/
def composeContent (prompt aspectRatio : String) (paths : List String)
    (upload : String → Option String) : List ContentPart :=
  ContentPart.text (prompt ++ ", aspect ratio " ++ aspectRatio)
    :: paths.filterMap (fun p => (upload p).map ContentPart.file)

/-- `db.query(UploadedImage).filter(id == mid).first()` on the modelled
image table (the `img_map` lookup keyed by id). -/
def lookupImage (imgs : List UploadedImage) (mid : Nat) : Option UploadedImage :=
  imgs.find? (fun img => img.id == mid)

/-- The ordering loop shared by `generate_content` (main.py lines 221-229)
and `generate_from_template` (lines 378-384): walk `image_ids` in the
supplied order, keep the ids found in the database, and build in lockstep
the image list and the local-path list. -/
def fetchWithPaths (imgs : List UploadedImage) (ids : List Nat) :
    List UploadedImage × List String :=
  ids.foldl
    (fun acc mid =>
      match lookupImage imgs mid with
      | some img => (acc.1 ++ [img], acc.2 ++ [localPath img.filepath])
      | none => acc)
    ([], [])

/-! ## System state and endpoints -/

/-- HTTP-style errors raised by the synchronous endpoint handlers. -/
inductive HErr where
  | notFound (detail : String)
  | serverError (detail : String)
deriving DecidableEq, Repr

/-- The observable persistent state: the three database tables plus the
two artifact-store categories, each store modelled as the list of
references whose files exist on disk. -/
structure SysState where
  images : List UploadedImage
  templates : List Template
  gens : List Generation
  uploadStore : List String
  generatedStore : List String
deriving DecidableEq, Repr

/-- Autoincrement primary key for a new `uploaded_images` row. -/
def freshImageId (imgs : List UploadedImage) : Nat :=
  imgs.foldl (fun m i => max m i.id) 0 + 1

/-- Autoincrement primary key for a new `generations` row. -/
def freshGenId (gens : List Generation) : Nat :=
  gens.foldl (fun m g => max m g.id) 0 + 1

/-- `db.query(Generation).filter(id == gid).first()`. -/
def lookupGen (gens : List Generation) (gid : Nat) : Option Generation :=
  gens.find? (fun g => g.id == gid)

/-- `db.query(Template).filter(id == tid).first()`. -/
def lookupTemplate (tmpls : List Template) (tid : Nat) : Option Template :=
  tmpls.find? (fun t => t.id == tid)

/-- `save_uploaded_file` (main.py lines 150-163): write the upload under a
fresh random name (`uuid`, including the original extension) and insert an
`UploadedImage` row pointing at it. -/
def save_uploaded_file (s : SysState) (origFilename uuid : String) :
    SysState × UploadedImage :=
  let ref := "/static/uploads/" ++ uuid
  let img : UploadedImage :=
    { id := freshImageId s.images, filename := origFilename, filepath := ref }
  ({ s with images := s.images ++ [img], uploadStore := s.uploadStore ++ [ref] }, img)

/-- One file of a multipart direct-upload request.  `uuid` is the random
name the save step draws (with the original extension appended), and
`ok = false` models `save_uploaded_file` raising for this file. -/
structure FileUpload where
  filename : String
  uuid : String
  ok : Bool := true
deriving DecidableEq, Repr

/-- The upload loop of the two direct endpoints (main.py lines 272-279 and
443-450): save each file in order; the first failure aborts the handler
with a 500-equivalent, keeping the rows already committed. -/
def processUploads (s : SysState) : List FileUpload → SysState × Except HErr (List UploadedImage)
  | [] => (s, Except.ok [])
  | f :: fs =>
    if f.ok then
      let p := save_uploaded_file s f.filename f.uuid
      match processUploads p.1 fs with
      | (s', Except.ok imgs) => (s', Except.ok (p.2 :: imgs))
      | (s', Except.error e) => (s', Except.error e)
    else (s, Except.error (HErr.serverError "File upload failed"))

/-- `POST /api/generate` (`generate_content`, main.py lines 199-248):
resolve the supplied image ids in order (absent ids are skipped silently),
persist a pending `Generation` whose primary reference mirrors the first
resolved image, and return it with the local paths handed to the
background task. -/
def generate_content (s : SysState) (prompt : String) (imageIds : List Nat)
    (aspectRatio : String) : SysState × Generation × List String :=
  let fetched := fetchWithPaths s.images imageIds
  let gen : Generation :=
    { id := freshGenId s.gens
      prompt := prompt
      aspectRatio := aspectRatio
      sourceImageId := match fetched.1 with | [] => none | img :: _ => some img.id
      sourceImages := fetched.1
      outputImagePath := none }
  ({ s with gens := s.gens ++ [gen] }, gen, fetched.2)

/-- `POST /api/generate-direct` (`generate_content_direct`, main.py lines
250-292): upload the files first, then persist the pending record as in
`generate_content`. -/
def generate_content_direct (s : SysState) (prompt : String)
    (files : List FileUpload) (aspectRatio : String) :
    SysState × Except HErr (Generation × List String) :=
  match processUploads s files with
  | (s', Except.error e) => (s', Except.error e)
  | (s', Except.ok imgs) =>
    let gen : Generation :=
      { id := freshGenId s'.gens
        prompt := prompt
        aspectRatio := aspectRatio
        sourceImageId := match imgs with | [] => none | img :: _ => some img.id
        sourceImages := imgs
        outputImagePath := none }
    ({ s' with gens := s'.gens ++ [gen] },
     Except.ok (gen, imgs.map (fun i => localPath i.filepath)))

/-- The template-image append loop of `generate_from_template`
(main.py lines 386-390): extend the user-image/path pair with each
reference image not already collected (`tmpl_img not in all_source_images`,
identity of ORM rows, i.e. equality of records here). -/
def appendTemplateImages (acc : List UploadedImage × List String)
    (refImgs : List UploadedImage) : List UploadedImage × List String :=
  refImgs.foldl
    (fun acc t =>
      if t ∈ acc.1 then acc else (acc.1 ++ [t], acc.2 ++ [localPath t.filepath]))
    acc

/-- `POST /api/generations/from-template` (`generate_from_template`,
main.py lines 346-415): 404 when the template is absent; otherwise compose
[resolved user images in supplied order] ++ [template reference images not
already present], persist the pending record, and return it with the task
paths. -/
def generate_from_template (s : SysState) (templateId : Nat) (imageIds : List Nat) :
    SysState × Except HErr (Generation × List String) :=
  match lookupTemplate s.templates templateId with
  | none => (s, Except.error (HErr.notFound "Template not found"))
  | some tmpl =>
    let combined := appendTemplateImages (fetchWithPaths s.images imageIds) tmpl.referenceImages
    let gen : Generation :=
      { id := freshGenId s.gens
        prompt := tmpl.promptTemplate
        aspectRatio := tmpl.aspectRatio
        sourceImageId := match combined.1 with | [] => none | img :: _ => some img.id
        sourceImages := combined.1
        outputImagePath := none }
    ({ s with gens := s.gens ++ [gen] }, Except.ok (gen, combined.2))

/-- `POST /api/generations/from-template-direct`
(`generate_from_template_direct`, main.py lines 417-480): 404 when the
template is absent; upload the files, then append every template reference
image with no duplicate check (main.py lines 452-456). -/
def generate_from_template_direct (s : SysState) (templateId : Nat)
    (files : List FileUpload) : SysState × Except HErr (Generation × List String) :=
  match lookupTemplate s.templates templateId with
  | none => (s, Except.error (HErr.notFound "Template not found"))
  | some tmpl =>
    match processUploads s files with
    | (s', Except.error e) => (s', Except.error e)
    | (s', Except.ok imgs) =>
      let allImgs := imgs ++ tmpl.referenceImages
      let gen : Generation :=
        { id := freshGenId s'.gens
          prompt := tmpl.promptTemplate
          aspectRatio := tmpl.aspectRatio
          sourceImageId := match allImgs with | [] => none | img :: _ => some img.id
          sourceImages := allImgs
          outputImagePath := none }
      ({ s' with gens := s'.gens ++ [gen] },
       Except.ok (gen, allImgs.map (fun i => localPath i.filepath)))

/-- `GET /api/generations/{gen_id}` (`get_generation`, main.py lines
489-494): 404 when absent, otherwise return the record unchanged. -/
def get_generation (s : SysState) (gid : Nat) : Except HErr Generation :=
  match lookupGen s.gens gid with
  | none => Except.error (HErr.notFound "Generation not found")
  | some g => Except.ok g

/-- `DELETE /api/generations/{gen_id}` (`delete_generation`, main.py lines
496-512): 404 when absent; remove the output artifact only when the output
field is truthy, differs from the failure sentinel and does not end in
`.txt`; then delete the row.  Source images are untouched. -/
def delete_generation (s : SysState) (gid : Nat) : SysState × Except HErr Unit :=
  match lookupGen s.gens gid with
  | none => (s, Except.error (HErr.notFound "Generation not found"))
  | some g =>
    let store :=
      match g.outputImagePath with
      | some p =>
        if p != "" && p != "error" && !(strEndsWith p ".txt") then
          s.generatedStore.erase p
        else s.generatedStore
      | none => s.generatedStore
    ({ s with gens := s.gens.filter (fun g' => g'.id != gid), generatedStore := store },
     Except.ok ())

/-- `DELETE /api/images/{image_id}` (`delete_image`, main.py lines
181-197): 404 when absent; remove the binary (removal errors are
swallowed, so an absent file is fine) and delete the row. -/
def delete_image (s : SysState) (iid : Nat) : SysState × Except HErr Unit :=
  match lookupImage s.images iid with
  | none => (s, Except.error (HErr.notFound "Image not found"))
  | some img =>
    ({ s with images := s.images.filter (fun i => i.id != iid),
              uploadStore := s.uploadStore.erase img.filepath },
     Except.ok ())

/-- The body of a template create/update request
(`schemas.TemplateCreate`): `referenceImageIds = none` models the field
being omitted from the request. -/
structure TemplateCreate where
  name : String
  promptTemplate : String
  aspectRatio : String
  referenceImageIds : Option (List Nat) := none
deriving DecidableEq, Repr

/-- The `UploadedImage.id.in_(ids)` query: the image rows whose id occurs
in the list, in table order; absent ids contribute nothing. -/
def imagesByIds (imgs : List UploadedImage) (ids : List Nat) : List UploadedImage :=
  imgs.filter (fun img => ids.contains img.id)

/-- `PUT /api/templates/{tmpl_id}` (`update_template`, main.py lines
311-331): 404 when the template is absent; otherwise overwrite name,
prompt and aspect ratio, and replace the reference images by the rows the
id list resolves to when one was supplied (absent ids are dropped
silently by the query). -/
def update_template (s : SysState) (tmplId : Nat) (t : TemplateCreate) :
    SysState × Except HErr Template :=
  match lookupTemplate s.templates tmplId with
  | none => (s, Except.error (HErr.notFound "Template not found"))
  | some tmpl =>
    let refs :=
      match t.referenceImageIds with
      | some ids => imagesByIds s.images ids
      | none => tmpl.referenceImages
    let tmpl' : Template :=
      { tmpl with name := t.name, promptTemplate := t.promptTemplate,
                  aspectRatio := t.aspectRatio, referenceImages := refs }
    ({ s with templates :=
        s.templates.map (fun x => if x.id == tmplId then tmpl' else x) },
     Except.ok tmpl')

/-- `DELETE /api/templates/{tmpl_id}` (`delete_template`, main.py lines
337-344): 404 when the template is absent; otherwise delete the row. -/
def delete_template (s : SysState) (tmplId : Nat) : SysState × Except HErr Unit :=
  match lookupTemplate s.templates tmplId with
  | none => (s, Except.error (HErr.notFound "Template not found"))
  | some _ =>
    ({ s with templates := s.templates.filter (fun x => x.id != tmplId) },
     Except.ok ())

/-- The database update of `generate_image_task`: overwrite the output
field of the row with the given id, leaving every other row unchanged. -/
def setOutput (gens : List Generation) (gid : Nat) (out : String) : List Generation :=
  gens.map (fun g => if g.id == gid then { g with outputImagePath := some out } else g)

/-- `generate_image_task` (main.py lines 66-148) over the modelled state:
compose the content, call the model (`callModel` returns `Except.error`
when `model.generate_content` raises), normalize the response, write the
chosen artifact to the generated store, and update the row — each write
guarded by the row still existing.  Any exception is absorbed into the
failure sentinel; the function is total, so nothing propagates. -/
def generate_image_task (s : SysState) (generationId : Nat) (prompt : String)
    (imagePaths : List String) (aspectRatio : String)
    (upload : String → Option String)
    (callModel : List ContentPart → Except Unit Response)
    (name : String) : SysState :=
  match callModel (composeContent prompt aspectRatio imagePaths upload) with
  | Except.error _ =>
    match lookupGen s.gens generationId with
    | some _ => { s with gens := setOutput s.gens generationId "error" }
    | none => s
  | Except.ok resp =>
    match normalize resp with
    | some a =>
      let ref := storedRef name a
      let s' := { s with generatedStore := s.generatedStore ++ [ref] }
      match lookupGen s'.gens generationId with
      | some _ => { s' with gens := setOutput s'.gens generationId ref }
      | none => s'
    | none =>
      match lookupGen s.gens generationId with
      | some _ => { s with gens := setOutput s.gens generationId "error" }
      | none => s

/-- The rows the `generation_inputs` association table (models.py lines
7-12) persists for one Generation: one `(generation_id, uploaded_image_id)`
row per source image.  The table has no position column and the
`source_images` relationship (models.py line 62) declares no ordering, so
the persisted value is a multiset of rows, not a sequence. -/
def generation_inputs (gid : Nat) (imgs : List UploadedImage) : Multiset (Nat × Nat) :=
  (imgs.map (fun i => (gid, i.id)) : List (Nat × Nat))

/-- The operations of the generation lifecycle the spec's invariant
quantifies over: the four creating endpoints, the background run, and
polling (`get_generation`, which never mutates state). -/
inductive Op where
  | opGenerate (prompt : String) (imageIds : List Nat) (aspectRatio : String)
  | opGenerateDirect (prompt : String) (files : List FileUpload) (aspectRatio : String)
  | opFromTemplate (templateId : Nat) (imageIds : List Nat)
  | opFromTemplateDirect (templateId : Nat) (files : List FileUpload)
  | opRun (gid : Nat) (prompt : String) (paths : List String) (aspectRatio : String)
      (upload : String → Option String)
      (callModel : List ContentPart → Except Unit Response) (name : String)
  | opPoll (gid : Nat)

/-- Apply one lifecycle operation to the state. -/
def applyOp (s : SysState) : Op → SysState
  | Op.opGenerate p ids ar => (generate_content s p ids ar).1
  | Op.opGenerateDirect p fs ar => (generate_content_direct s p fs ar).1
  | Op.opFromTemplate tid ids => (generate_from_template s tid ids).1
  | Op.opFromTemplateDirect tid fs => (generate_from_template_direct s tid fs).1
  | Op.opRun gid p paths ar upload cm name =>
      generate_image_task s gid p paths ar upload cm name
  | Op.opPoll _ => s

/-- The output-field invariant of one Generation row relative to the
generated store: unset, the failure sentinel, or a reference of the
generated-artifact shape whose file is in the store. -/
def outputOK (store : List String) (g : Generation) : Prop :=
  g.outputImagePath = none ∨ g.outputImagePath = some "error" ∨
    ∃ name a, g.outputImagePath = some (storedRef name a) ∧ storedRef name a ∈ store

/-- The state-wide output invariant: every Generation row satisfies
`outputOK` against the current generated store. -/
def gensOK (s : SysState) : Prop :=
  ∀ g ∈ s.gens, outputOK s.generatedStore g

/-! ## Helper lemmas -/

/-- The first component of the part-loop fold is determined by the last
inline-data part: the written path of the last binary part, or the initial
accumulator when no part carries binary data. -/
theorem scanParts_fst (ps : List Part) (o : Option Artifact) (t : String) :
    (ps.foldl processPart (o, t)).1 =
      (match lastInline ps with
       | some d => some (Artifact.image (extForMime d.mimeType) d.data)
       | none => o) := by
  induction ps generalizing o t with
  | nil => rfl
  | cons p ps ih =>
    rw [List.foldl_cons, ih]
    cases h : lastInline ps with
    | some d => simp [lastInline, h]
    | none =>
      cases hd : p.inlineData with
      | some d => simp [lastInline, h, hd, processPart]
      | none =>
        simp only [lastInline, h, hd, processPart]
        split <;> rfl

/-- When some part of the response carries inline data, normalization
returns the image artifact of the last such part. -/
theorem normalize_of_lastInline (r : Response) (d : InlineData)
    (h : lastInline r.parts = some d) :
    normalize r = some (Artifact.image (extForMime d.mimeType) d.data) := by
  have h1 : (scanParts r.parts).1 = some (Artifact.image (extForMime d.mimeType) d.data) := by
    rw [scanParts, scanParts_fst, h]
  rcases hsp : scanParts r.parts with ⟨o, txt⟩
  rw [hsp] at h1
  simp only at h1
  rw [normalize, hsp, h1]

/-- Generalized characterization of the id-resolution loop: it appends to
the running accumulator the resolvable images in supplied order and, in
lockstep, their local paths. -/
theorem fetch_go (imgs : List UploadedImage) (ids : List Nat)
    (l : List UploadedImage) (p : List String) :
    (ids.foldl
      (fun acc mid =>
        match lookupImage imgs mid with
        | some img => (acc.1 ++ [img], acc.2 ++ [localPath img.filepath])
        | none => acc)
      (l, p)) =
      (l ++ ids.filterMap (lookupImage imgs),
       p ++ (ids.filterMap (lookupImage imgs)).map (fun i => localPath i.filepath)) := by
  induction ids generalizing l p with
  | nil => simp
  | cons mid ids ih =>
    rw [List.foldl_cons]
    cases h : lookupImage imgs mid with
    | none => simp only [h, ih, List.filterMap_cons, h]
    | some img =>
      simp only [h, ih, List.filterMap_cons, List.map_cons, List.map_append]
      simp [List.append_assoc]

/-- `fetchWithPaths` resolves exactly the supplied ids present in the
database, in the supplied order, pairing each with its local path. -/
theorem fetchWithPaths_eq (imgs : List UploadedImage) (ids : List Nat) :
    fetchWithPaths imgs ids =
      (ids.filterMap (lookupImage imgs),
       (ids.filterMap (lookupImage imgs)).map (fun i => localPath i.filepath)) := by
  rw [fetchWithPaths, fetch_go]
  simp

/-- Generalized characterization of the template-append loop: with
duplicate-free reference images it extends the collected image list by
exactly the reference images not already collected, in stored order. -/
theorem appendTemplate_go (t : List UploadedImage)
    (u : List UploadedImage) (p : List String) (h : t.Nodup) :
    (t.foldl
      (fun acc x =>
        if x ∈ acc.1 then acc else (acc.1 ++ [x], acc.2 ++ [localPath x.filepath]))
      (u, p)).1 = u ++ t.filter (fun x => decide (x ∉ u)) := by
  induction t generalizing u p with
  | nil => simp
  | cons x xs ih =>
    have hx : x ∉ xs := (List.nodup_cons.mp h).1
    have hxs : xs.Nodup := (List.nodup_cons.mp h).2
    rw [List.foldl_cons]
    by_cases hu : x ∈ u
    · simp only [hu, if_pos]
      rw [ih u p hxs]
      simp [List.filter_cons, hu]
    · simp only [hu, if_neg, not_false_iff]
      rw [ih (u ++ [x]) (p ++ [localPath x.filepath]) hxs]
      have hcongr : ∀ y ∈ xs,
          (decide (y ∉ u ++ [x]) : Bool) = decide (y ∉ u) := by
        intro y hy
        have hyx : y ≠ x := fun e => hx (e ▸ hy)
        simp [List.mem_append, hyx]
      rw [List.filter_congr hcongr]
      simp [List.filter_cons, hu, List.append_assoc]

/-- `appendTemplateImages` on duplicate-free reference images yields
[collected images] ++ [reference images not already collected]. -/
theorem appendTemplateImages_fst (t : List UploadedImage)
    (u : List UploadedImage) (p : List String) (h : t.Nodup) :
    (appendTemplateImages (u, p) t).1 = u ++ t.filter (fun x => decide (x ∉ u)) :=
  appendTemplate_go t u p h

/-- Every row of `setOutput gens gid out` is either a row of `gens`
(untouched) or carries `some out` in its output field. -/
theorem mem_setOutput (gens : List Generation) (gid : Nat) (out : String)
    (g : Generation) (hm : g ∈ setOutput gens gid out) :
    g ∈ gens ∨ g.outputImagePath = some out := by
  rw [setOutput] at hm
  rcases List.mem_map.mp hm with ⟨g0, hg0, he⟩
  by_cases hid : g0.id = gid
  · right
    rw [← he]
    simp [hid]
  · left
    have : (g0.id == gid) = false := by simp [hid]
    rw [this] at he
    simp at he
    rwa [← he]

/-- A row of `setOutput gens gid out` whose id is `gid` carries
`some out`. -/
theorem mem_setOutput_id (gens : List Generation) (gid : Nat) (out : String)
    (g : Generation) (hm : g ∈ setOutput gens gid out) (hid : g.id = gid) :
    g.outputImagePath = some out := by
  rw [setOutput] at hm
  rcases List.mem_map.mp hm with ⟨g0, hg0, he⟩
  by_cases h0 : g0.id = gid
  · rw [← he]
    simp [h0]
  · have hb : (g0.id == gid) = false := by simp [h0]
    rw [hb] at he
    simp at he
    rw [← he] at hid
    exact absurd hid h0

/-- Rows whose id differs from `gid` survive `setOutput` unchanged. -/
theorem mem_setOutput_of_ne (gens : List Generation) (gid : Nat) (out : String)
    (g : Generation) (hg : g ∈ gens) (hne : g.id ≠ gid) :
    g ∈ setOutput gens gid out := by
  rw [setOutput]
  have hb : (g.id == gid) = false := by simp [hne]
  have : (fun g' => if g'.id == gid then { g' with outputImagePath := some out } else g') g = g := by
    simp [hb]
  rw [← this]
  exact List.mem_map_of_mem _ hg

/-- When `lookupGen` misses, no row has the sought id. -/
theorem lookupGen_none (gens : List Generation) (gid : Nat)
    (h : lookupGen gens gid = none) : ∀ g ∈ gens, g.id ≠ gid := by
  intro g hg
  have := List.find?_eq_none.mp h g hg
  simpa using this

/-- The upload loop touches only the image table and the upload store:
generation rows, templates and the generated store are untouched. -/
theorem processUploads_frame (fs : List FileUpload) (s : SysState) :
    ((processUploads s fs).1).gens = s.gens ∧
    ((processUploads s fs).1).generatedStore = s.generatedStore ∧
    ((processUploads s fs).1).templates = s.templates := by
  induction fs generalizing s with
  | nil => exact ⟨rfl, rfl, rfl⟩
  | cons f fs ih =>
    rw [processUploads]
    by_cases hok : f.ok
    · simp only [hok, if_pos]
      rcases hps : processUploads (save_uploaded_file s f.filename f.uuid).1 fs with ⟨s', r⟩
      have := ih (save_uploaded_file s f.filename f.uuid).1
      rw [hps] at this
      cases r <;> simpa [save_uploaded_file] using this
    · simp [hok]

/-- `outputOK` is monotone in the generated store. -/
theorem outputOK_mono (st st' : List String) (hsub : ∀ x ∈ st, x ∈ st')
    (g : Generation) (h : outputOK st g) : outputOK st' g := by
  rcases h with h | h | ⟨name, a, he, hm⟩
  · exact Or.inl h
  · exact Or.inr (Or.inl h)
  · exact Or.inr (Or.inr ⟨name, a, he, hsub _ hm⟩)

/-- Every lifecycle operation preserves the state-wide output invariant. -/
theorem gensOK_applyOp (s : SysState) (h : gensOK s) (op : Op) :
    gensOK (applyOp s op) := by
  cases op with
  | opGenerate p ids ar =>
    intro g hg
    rcases List.mem_append.mp hg with hg | hg
    · exact h g hg
    · rw [List.mem_singleton.mp hg]
      exact Or.inl rfl
  | opGenerateDirect p fs ar =>
    have hfr := processUploads_frame fs s
    simp only [applyOp, generate_content_direct]
    rcases hps : processUploads s fs with ⟨s', r⟩
    rw [hps] at hfr
    cases r with
    | error e =>
      intro g hg
      simp only at hg ⊢
      rw [hfr.1] at hg
      rw [hfr.2.1]
      exact h g hg
    | ok imgs =>
      intro g hg
      simp only at hg ⊢
      rw [hfr.2.1]
      rw [hfr.1] at hg
      rcases List.mem_append.mp hg with hg | hg
      · exact h g hg
      · rw [List.mem_singleton.mp hg]
        exact Or.inl rfl
  | opFromTemplate tid ids =>
    simp only [applyOp, generate_from_template]
    cases hlt : lookupTemplate s.templates tid with
    | none => exact h
    | some tmpl =>
      intro g hg
      simp only at hg ⊢
      rcases List.mem_append.mp hg with hg | hg
      · exact h g hg
      · rw [List.mem_singleton.mp hg]
        exact Or.inl rfl
  | opFromTemplateDirect tid fs =>
    simp only [applyOp, generate_from_template_direct]
    cases hlt : lookupTemplate s.templates tid with
    | none => exact h
    | some tmpl =>
      have hfr := processUploads_frame fs s
      rcases hps : processUploads s fs with ⟨s', r⟩
      rw [hps] at hfr
      cases r with
      | error e =>
        intro g hg
        simp only at hg ⊢
        rw [hfr.1] at hg
        rw [hfr.2.1]
        exact h g hg
      | ok imgs =>
        intro g hg
        simp only at hg ⊢
        rw [hfr.2.1]
        rw [hfr.1] at hg
        rcases List.mem_append.mp hg with hg | hg
        · exact h g hg
        · rw [List.mem_singleton.mp hg]
          exact Or.inl rfl
  | opRun gid p paths ar upload cm name =>
    simp only [applyOp, generate_image_task]
    cases hcm : cm (composeContent p ar paths upload) with
    | error e =>
      dsimp only
      cases hlk : lookupGen s.gens gid with
      | none => exact h
      | some g0 =>
        intro g hg
        dsimp only at hg ⊢
        rcases mem_setOutput s.gens gid "error" g hg with hm | hm
        · exact h g hm
        · exact Or.inr (Or.inl hm)
    | ok resp =>
      dsimp only
      cases hn : normalize resp with
      | none =>
        dsimp only
        cases hlk : lookupGen s.gens gid with
        | none => exact h
        | some g0 =>
          intro g hg
          dsimp only at hg ⊢
          rcases mem_setOutput s.gens gid "error" g hg with hm | hm
          · exact h g hm
          · exact Or.inr (Or.inl hm)
      | some a =>
        dsimp only
        cases hlk : lookupGen s.gens gid with
        | none =>
          intro g hg
          dsimp only at hg ⊢
          exact outputOK_mono s.generatedStore
            (s.generatedStore ++ [storedRef name a])
            (fun x hx => List.mem_append_left _ hx) g (h g hg)
        | some g0 =>
          intro g hg
          dsimp only at hg ⊢
          rcases mem_setOutput s.gens gid (storedRef name a) g hg with hm | hm
          · exact outputOK_mono s.generatedStore
              (s.generatedStore ++ [storedRef name a])
              (fun x hx => List.mem_append_left _ hx) g (h g hm)
          · exact Or.inr (Or.inr ⟨name, a, hm,
              List.mem_append_right _ (List.mem_singleton_self _)⟩)
  | opPoll gid => exact h

/-! ## Concrete fixtures for witnesses and counterexamples -/

/-- The state with empty tables and empty stores. -/
def initState : SysState :=
  { images := [], templates := [], gens := [], uploadStore := [], generatedStore := [] }

/-- The response of the spec's normalization example:
parts [text "hi", binary(png), binary(jpg)]. -/
def exampleResponse : Response :=
  { parts :=
      [ { text := "hi" },
        { inlineData := some { mimeType := "image/png", data := [1] } },
        { inlineData := some { mimeType := "image/jpeg", data := [2] } } ] }

/-- A pending generation row with id 1. -/
def pendingGen : Generation :=
  { id := 1, prompt := "p", aspectRatio := "1:1" }

/-- A state holding only the pending generation `pendingGen`. -/
def pendingState : SysState :=
  { images := [], templates := [], gens := [pendingGen],
    uploadStore := [], generatedStore := [] }

/-! ## Claims -/

/-- C1, counterexample.  The claim says the first binary part wins: for
parts [text "hi", binary(png: bytes [1]), binary(jpg: bytes [2])] the
stored output would be the `.png` artifact with bytes [1].  The code
overwrites `output_path_for_db` on every inline-data part, so
normalization returns the `.jpg` artifact of the **last** binary part,
which differs from the first-binary artifact. -/
theorem normalize_keeps_last_binary_cex :
    normalize exampleResponse = some (Artifact.image ".jpg" [2]) ∧
    (Artifact.image ".jpg" [2] == Artifact.image ".png" [1]) = false := by
  constructor
  · rfl
  · rfl

/-- C1 (amended): for every background run whose model call returns a
response containing at least one binary (inline-data) part, the
Generation's stored output reference is the artifact stored from the
**last** binary part encountered (extension `.jpg` if its mime type
contains "jpeg"/"jpg", `.webp` if it contains "webp", else `.png`, via
`extForMime`); earlier binary parts and all accumulated text are
discarded from the stored output. -/
theorem run_stores_last_binary (s : SysState) (gid : Nat)
    (p : String) (paths : List String) (ar : String)
    (upload : String → Option String)
    (cm : List ContentPart → Except Unit Response) (name : String)
    (resp : Response) (d : InlineData)
    (hcm : cm (composeContent p ar paths upload) = Except.ok resp)
    (hd : lastInline resp.parts = some d)
    (hg : (lookupGen s.gens gid).isSome = true) :
    (generate_image_task s gid p paths ar upload cm name).gens =
      setOutput s.gens gid
        (storedRef name (Artifact.image (extForMime d.mimeType) d.data)) ∧
    storedRef name (Artifact.image (extForMime d.mimeType) d.data) ∈
      (generate_image_task s gid p paths ar upload cm name).generatedStore := by
  rcases Option.isSome_iff_exists.mp hg with ⟨g0, hg0⟩
  simp only [generate_image_task, hcm, normalize_of_lastInline resp d hd]
  rw [hg0]
  exact ⟨rfl, List.mem_append_right _ (List.mem_singleton_self _)⟩

/-- C1 witness: the amended theorem applied to `pendingState` and the
example response. -/
theorem run_stores_last_binary_witness :
    (generate_image_task pendingState 1 "p" [] "1:1" (fun _ => none)
        (fun _ => Except.ok exampleResponse) "u").gens =
      setOutput pendingState.gens 1
        (storedRef "u" (Artifact.image (extForMime "image/jpeg") [2])) ∧
    storedRef "u" (Artifact.image (extForMime "image/jpeg") [2]) ∈
      (generate_image_task pendingState 1 "p" [] "1:1" (fun _ => none)
        (fun _ => Except.ok exampleResponse) "u").generatedStore :=
  run_stores_last_binary pendingState 1 "p" [] "1:1" (fun _ => none)
    (fun _ => Except.ok exampleResponse) "u" exampleResponse
    { mimeType := "image/jpeg", data := [2] } rfl rfl rfl

/-- C2: for every generation request with prompt `p`, aspect ratio `ar`
and ordered image ids `ids`, the composed model request is exactly one
leading text part — the prompt concatenated with the aspect-ratio hint —
followed by one file part per attachable image: the supplied images that
exist in the database and whose upload succeeds, in the supplied relative
order, at most as many as ids were supplied.  The paths come from the
`generate_content` endpoint exactly as handed to the background task, and
an image failing to attach (`upload = none`) is skipped without failing
the request. -/
theorem request_composition (s : SysState) (p ar : String) (ids : List Nat)
    (upload : String → Option String) :
    composeContent p ar (generate_content s p ids ar).2.2 upload =
      ContentPart.text (p ++ ", aspect ratio " ++ ar)
        :: (ids.filterMap (lookupImage s.images)).filterMap
             (fun img => (upload (localPath img.filepath)).map ContentPart.file) ∧
    ((ids.filterMap (lookupImage s.images)).filterMap
        (fun img => (upload (localPath img.filepath)).map ContentPart.file)).length
      ≤ ids.length := by
  constructor
  · have hp : (generate_content s p ids ar).2.2 = (fetchWithPaths s.images ids).2 := rfl
    rw [hp, fetchWithPaths_eq]
    simp only [composeContent, List.filterMap_map]
    rfl
  · exact le_trans (List.length_filterMap_le _ _) (List.length_filterMap_le _ _)

/-- C3: template application composes [caller images in caller order] ++
[template reference images in stored order], where the ID-based variant
skips a template image already collected (dedup by record identity, the
model of ORM object identity) and the direct-upload variant appends all
template images with no dedup.  `hnd` reflects that a template's
reference-image list never holds duplicate rows. -/
theorem template_composition (s : SysState) (tid : Nat) (ids : List Nat)
    (tmpl : Template) (files : List FileUpload) (s' : SysState)
    (imgs : List UploadedImage)
    (ht : lookupTemplate s.templates tid = some tmpl)
    (hnd : tmpl.referenceImages.Nodup)
    (hup : processUploads s files = (s', Except.ok imgs)) :
    (∃ gen tpaths, (generate_from_template s tid ids).2 = Except.ok (gen, tpaths) ∧
      gen.sourceImages = (fetchWithPaths s.images ids).1
        ++ tmpl.referenceImages.filter
             (fun x => decide (x ∉ (fetchWithPaths s.images ids).1))) ∧
    (∃ gen dpaths,
      (generate_from_template_direct s tid files).2 = Except.ok (gen, dpaths) ∧
      gen.sourceImages = imgs ++ tmpl.referenceImages) := by
  constructor
  · rcases hf : fetchWithPaths s.images ids with ⟨u, pth⟩
    simp only [generate_from_template, ht, hf]
    exact ⟨_, _, rfl, appendTemplateImages_fst tmpl.referenceImages u pth hnd⟩
  · simp only [generate_from_template_direct, ht, hup]
    exact ⟨_, _, rfl, rfl⟩

/-- Fixture image with id 1. -/
def imgA : UploadedImage :=
  { id := 1, filename := "a.png", filepath := "/static/uploads/a.png" }

/-- Fixture image with id 2. -/
def imgB : UploadedImage :=
  { id := 2, filename := "b.png", filepath := "/static/uploads/b.png" }

/-- Fixture image with id 3, used as a template reference. -/
def imgT : UploadedImage :=
  { id := 3, filename := "t.png", filepath := "/static/uploads/t.png" }

/-- Fixture template with one reference image. -/
def tmplFix : Template :=
  { id := 7, name := "tm", promptTemplate := "pp", aspectRatio := "16:9",
    referenceImages := [imgT] }

/-- Fixture state holding the three images and the template. -/
def tmplState : SysState :=
  { images := [imgA, imgB, imgT], templates := [tmplFix], gens := [],
    uploadStore := [], generatedStore := [] }

/-- Fixture direct-upload file. -/
def fileF : FileUpload := { filename := "f.png", uuid := "uu.png" }

/-- The image row `fileF` produces when saved into `tmplState`. -/
def fileImg : UploadedImage :=
  { id := 4, filename := "f.png", filepath := "/static/uploads/uu.png" }

/-- C3 witness: the composition theorem applied to user ids [1,2] and the
template with reference image id 3 (both variants). -/
theorem template_composition_witness :
    (∃ gen tpaths,
      (generate_from_template tmplState 7 [1, 2]).2 = Except.ok (gen, tpaths) ∧
      gen.sourceImages = (fetchWithPaths tmplState.images [1, 2]).1
        ++ tmplFix.referenceImages.filter
             (fun x => decide (x ∉ (fetchWithPaths tmplState.images [1, 2]).1))) ∧
    (∃ gen dpaths,
      (generate_from_template_direct tmplState 7 [fileF]).2 = Except.ok (gen, dpaths) ∧
      gen.sourceImages = [fileImg] ++ tmplFix.referenceImages) :=
  template_composition tmplState 7 [1, 2] tmplFix [fileF]
    (processUploads tmplState [fileF]).1 [fileImg] rfl (by decide) rfl

/-- C4: after any sequence of lifecycle operations (creation through any
of the four endpoints, background run completion, polling) from a state
satisfying the output invariant, every Generation's output field is
exactly one of: unset, the literal failure sentinel `"error"`, or a
generated-artifact reference present in the generated store. -/
theorem output_field_states (ops : List Op) (s : SysState) (h : gensOK s) :
    gensOK (ops.foldl applyOp s) := by
  induction ops generalizing s with
  | nil => exact h
  | cons op ops ih => exact ih (applyOp s op) (gensOK_applyOp s h op)

/-- Fixture operation sequence: create, run (model call raises), poll. -/
def opsFix : List Op :=
  [ Op.opGenerate "p" [] "1:1",
    Op.opRun 1 "p" [] "1:1" (fun _ => none) (fun _ => Except.error ()) "u",
    Op.opPoll 1 ]

/-- C4 witness: the invariant theorem applied to the empty initial state
and a concrete operation sequence. -/
theorem output_field_states_witness : gensOK (opsFix.foldl applyOp initState) :=
  output_field_states opsFix initState (by intro g hg; simp [initState] at hg)

/-- C5: when the model call raises (any exception inside the background
run's try block), the run writes the failure sentinel to the Generation's
output field and stops: the artifact stores and every other table are
unchanged, rows of other Generations are untouched, and — the function
being total — no error propagates to any caller. -/
theorem run_exception_absorbed (s : SysState) (gid : Nat) (p : String)
    (paths : List String) (ar : String) (upload : String → Option String)
    (cm : List ContentPart → Except Unit Response) (name : String)
    (hcm : cm (composeContent p ar paths upload) = Except.error ()) :
    (generate_image_task s gid p paths ar upload cm name).generatedStore
        = s.generatedStore ∧
    (generate_image_task s gid p paths ar upload cm name).images = s.images ∧
    (generate_image_task s gid p paths ar upload cm name).uploadStore
        = s.uploadStore ∧
    (generate_image_task s gid p paths ar upload cm name).templates
        = s.templates ∧
    (∀ g ∈ (generate_image_task s gid p paths ar upload cm name).gens,
        g.id = gid → g.outputImagePath = some "error") ∧
    (∀ g ∈ s.gens, g.id ≠ gid →
        g ∈ (generate_image_task s gid p paths ar upload cm name).gens) := by
  simp only [generate_image_task, hcm]
  cases hlk : lookupGen s.gens gid with
  | none =>
    exact ⟨rfl, rfl, rfl, rfl,
      fun g hg hid => absurd hid (lookupGen_none s.gens gid hlk g hg),
      fun g hg _ => hg⟩
  | some g0 =>
    exact ⟨rfl, rfl, rfl, rfl,
      fun g hg hid => mem_setOutput_id s.gens gid "error" g hg hid,
      fun g hg hne => mem_setOutput_of_ne s.gens gid "error" g hg hne⟩

/-- C5 witness: the exception theorem applied to the pending-generation
state with a model call that always raises. -/
theorem run_exception_absorbed_witness :
    (generate_image_task pendingState 1 "p" [] "1:1" (fun _ => none)
        (fun _ => Except.error ()) "u").generatedStore
        = pendingState.generatedStore ∧
    (generate_image_task pendingState 1 "p" [] "1:1" (fun _ => none)
        (fun _ => Except.error ()) "u").images = pendingState.images ∧
    (generate_image_task pendingState 1 "p" [] "1:1" (fun _ => none)
        (fun _ => Except.error ()) "u").uploadStore = pendingState.uploadStore ∧
    (generate_image_task pendingState 1 "p" [] "1:1" (fun _ => none)
        (fun _ => Except.error ()) "u").templates = pendingState.templates ∧
    (∀ g ∈ (generate_image_task pendingState 1 "p" [] "1:1" (fun _ => none)
        (fun _ => Except.error ()) "u").gens,
        g.id = 1 → g.outputImagePath = some "error") ∧
    (∀ g ∈ pendingState.gens, g.id ≠ 1 →
        g ∈ (generate_image_task pendingState 1 "p" [] "1:1" (fun _ => none)
          (fun _ => Except.error ()) "u").gens) :=
  run_exception_absorbed pendingState 1 "p" [] "1:1" (fun _ => none)
    (fun _ => Except.error ()) "u" rfl

/-- Generation row whose run produced a text artifact. -/
def txtGen : Generation :=
  { id := 1, prompt := "p", aspectRatio := "1:1",
    outputImagePath := some "/static/generated/gen_a.txt" }

/-- State holding `txtGen` and its stored text artifact. -/
def txtState : SysState :=
  { images := [], templates := [], gens := [txtGen],
    uploadStore := [], generatedStore := ["/static/generated/gen_a.txt"] }

/-- C6, counterexample.  The claim says deleting a Generation removes its
output artifact whenever the output field is set and is not the failure
sentinel.  For a Generation whose output is a (set, non-sentinel) `.txt`
reference, deletion succeeds but the artifact stays in the generated
store: the code additionally excludes `.txt` outputs from removal. -/
theorem delete_keeps_txt_artifact_cex :
    txtGen.outputImagePath = some "/static/generated/gen_a.txt" ∧
    (("/static/generated/gen_a.txt" : String) == "error") = false ∧
    (delete_generation txtState 1).2 = Except.ok () ∧
    (delete_generation txtState 1).1.generatedStore
      = ["/static/generated/gen_a.txt"] := by
  exact ⟨rfl, by decide, rfl, rfl⟩

/-- C6 (amended): deleting an existing Generation removes its output
artifact from the generated store exactly when the output field is set,
non-empty, differs from the failure sentinel **and does not end in
`.txt`**; it deletes the row, and never touches source StoredImages —
neither their table rows nor their stored binaries. -/
theorem delete_generation_effects (s : SysState) (gid : Nat) (g : Generation)
    (h : lookupGen s.gens gid = some g) :
    (delete_generation s gid).2 = Except.ok () ∧
    (delete_generation s gid).1.images = s.images ∧
    (delete_generation s gid).1.uploadStore = s.uploadStore ∧
    (delete_generation s gid).1.templates = s.templates ∧
    (delete_generation s gid).1.gens = s.gens.filter (fun g' => g'.id != gid) ∧
    (∀ pth, g.outputImagePath = some pth →
      (pth != "" && pth != "error" && !(strEndsWith pth ".txt")) = true →
      (delete_generation s gid).1.generatedStore = s.generatedStore.erase pth) ∧
    (∀ pth, g.outputImagePath = some pth →
      (pth != "" && pth != "error" && !(strEndsWith pth ".txt")) = false →
      (delete_generation s gid).1.generatedStore = s.generatedStore) ∧
    (g.outputImagePath = none →
      (delete_generation s gid).1.generatedStore = s.generatedStore) := by
  simp only [delete_generation, h]
  refine ⟨trivial, trivial, trivial, trivial, trivial, ?_, ?_, ?_⟩
  · intro pth hp hcond
    simp only [hp]
    rw [if_pos hcond]
  · intro pth hp hcond
    simp only [hp]
    rw [if_neg (by simp [hcond])]
  · intro hp
    simp only [hp]

/-- Generation row with a stored image output, for the C6 witness. -/
def okGen : Generation :=
  { id := 2, prompt := "p", aspectRatio := "1:1",
    outputImagePath := some "/static/generated/gen_b.png" }

/-- State holding `okGen`, its artifact, and one source image. -/
def okState : SysState :=
  { images := [imgA], templates := [], gens := [okGen],
    uploadStore := ["/static/uploads/a.png"],
    generatedStore := ["/static/generated/gen_b.png"] }

/-- C6 witness: the deletion theorem applied to `okState`. -/
theorem delete_generation_effects_witness :
    (delete_generation okState 2).2 = Except.ok () ∧
    (delete_generation okState 2).1.images = okState.images ∧
    (delete_generation okState 2).1.uploadStore = okState.uploadStore ∧
    (delete_generation okState 2).1.templates = okState.templates ∧
    (delete_generation okState 2).1.gens
      = okState.gens.filter (fun g' => g'.id != 2) ∧
    (∀ pth, okGen.outputImagePath = some pth →
      (pth != "" && pth != "error" && !(strEndsWith pth ".txt")) = true →
      (delete_generation okState 2).1.generatedStore
        = okState.generatedStore.erase pth) ∧
    (∀ pth, okGen.outputImagePath = some pth →
      (pth != "" && pth != "error" && !(strEndsWith pth ".txt")) = false →
      (delete_generation okState 2).1.generatedStore = okState.generatedStore) ∧
    (okGen.outputImagePath = none →
      (delete_generation okState 2).1.generatedStore = okState.generatedStore) :=
  delete_generation_effects okState 2 okGen rfl

/-- C7, counterexample.  The claim says every request referencing an
absent entity fails with a 404-equivalent, including generation submission
with image ids.  Submitting a generation that references the absent image
id 999 does not fail: the id is skipped silently and a pending Generation
with no source images is still created (the handler's result type cannot
even carry an error). -/
theorem submit_absent_id_no_404_cex :
    lookupImage initState.images 999 = none ∧
    (generate_content initState "p" [999] "1:1").2.1.sourceImages = [] ∧
    (generate_content initState "p" [999] "1:1").1.gens
      = [(generate_content initState "p" [999] "1:1").2.1] :=
  ⟨rfl, rfl, rfl⟩

/-- C7 (amended): endpoints that look up a single entity by id — image
deletion, template update, template deletion, template application (both
variants), generation lookup and generation deletion — fail with a
404-equivalent when the entity is absent; generation submission with
image ids does **not** fail on absent ids: it silently skips them,
keeping exactly the resolvable ids, and still creates the pending
record. -/
theorem absent_entity_errors (s : SysState) (iid tid gid : Nat)
    (ids : List Nat) (files : List FileUpload) (tc : TemplateCreate)
    (p ar : String)
    (hi : lookupImage s.images iid = none)
    (ht : lookupTemplate s.templates tid = none)
    (hg : lookupGen s.gens gid = none) :
    (delete_image s iid).2 = Except.error (HErr.notFound "Image not found") ∧
    (update_template s tid tc).2
        = Except.error (HErr.notFound "Template not found") ∧
    (delete_template s tid).2
        = Except.error (HErr.notFound "Template not found") ∧
    (generate_from_template s tid ids).2
        = Except.error (HErr.notFound "Template not found") ∧
    (generate_from_template_direct s tid files).2
        = Except.error (HErr.notFound "Template not found") ∧
    get_generation s gid = Except.error (HErr.notFound "Generation not found") ∧
    (delete_generation s gid).2
        = Except.error (HErr.notFound "Generation not found") ∧
    (generate_content s p ids ar).2.1.sourceImages
        = ids.filterMap (lookupImage s.images) ∧
    (generate_content s p ids ar).1.gens
        = s.gens ++ [(generate_content s p ids ar).2.1] := by
  refine ⟨?_, ?_, ?_, ?_, ?_, ?_, ?_, ?_, rfl⟩
  · simp [delete_image, hi]
  · simp [update_template, ht]
  · simp [delete_template, ht]
  · simp [generate_from_template, ht]
  · simp [generate_from_template_direct, ht]
  · simp [get_generation, hg]
  · simp [delete_generation, hg]
  · have hsrc : (generate_content s p ids ar).2.1.sourceImages
        = (fetchWithPaths s.images ids).1 := rfl
    rw [hsrc, fetchWithPaths_eq]

/-- Fixture template-update request body for the C7 witness. -/
def tcFix : TemplateCreate :=
  { name := "n", promptTemplate := "q", aspectRatio := "1:1" }

/-- C7 witness: the 404 theorem applied to `tmplState` with the absent id
999 for all three entity kinds (including template update and deletion),
and a submission mixing the absent id 999 with the present id 1. -/
theorem absent_entity_errors_witness :
    (delete_image tmplState 999).2
        = Except.error (HErr.notFound "Image not found") ∧
    (update_template tmplState 999 tcFix).2
        = Except.error (HErr.notFound "Template not found") ∧
    (delete_template tmplState 999).2
        = Except.error (HErr.notFound "Template not found") ∧
    (generate_from_template tmplState 999 [999, 1]).2
        = Except.error (HErr.notFound "Template not found") ∧
    (generate_from_template_direct tmplState 999 []).2
        = Except.error (HErr.notFound "Template not found") ∧
    get_generation tmplState 999
        = Except.error (HErr.notFound "Generation not found") ∧
    (delete_generation tmplState 999).2
        = Except.error (HErr.notFound "Generation not found") ∧
    (generate_content tmplState "p" [999, 1] "1:1").2.1.sourceImages
        = [999, 1].filterMap (lookupImage tmplState.images) ∧
    (generate_content tmplState "p" [999, 1] "1:1").1.gens
        = tmplState.gens ++ [(generate_content tmplState "p" [999, 1] "1:1").2.1] :=
  absent_entity_errors tmplState 999 999 999 [999, 1] [] tcFix "p" "1:1" rfl rfl rfl

/-- The `if uploaded_images: source_image_id = uploaded_images[0].id`
idiom, characterized through `head?`. -/
theorem headId (l : List UploadedImage) :
    (match l with | [] => none | img :: _ => some img.id)
      = (l.head?).map (fun i => i.id) := by
  cases l <;> rfl

/-- C8: every created Generation's primary-reference field equals the id
of the first element of its ordered source-image list, and stays unset
when the list is empty — across all four creation endpoints (stated via
`head?.map`, which is `none` exactly on the empty list). -/
theorem primary_mirrors_head (s : SysState) (p ar : String) (ids : List Nat)
    (files : List FileUpload) (tid : Nat)
    (g2 g3 g4 : Generation) (p2 p3 p4 : List String)
    (h2 : (generate_content_direct s p files ar).2 = Except.ok (g2, p2))
    (h3 : (generate_from_template s tid ids).2 = Except.ok (g3, p3))
    (h4 : (generate_from_template_direct s tid files).2 = Except.ok (g4, p4)) :
    (generate_content s p ids ar).2.1.sourceImageId
        = ((generate_content s p ids ar).2.1.sourceImages.head?).map (fun i => i.id) ∧
    g2.sourceImageId = (g2.sourceImages.head?).map (fun i => i.id) ∧
    g3.sourceImageId = (g3.sourceImages.head?).map (fun i => i.id) ∧
    g4.sourceImageId = (g4.sourceImages.head?).map (fun i => i.id) := by
  refine ⟨headId _, ?_, ?_, ?_⟩
  · rcases hps : processUploads s files with ⟨s', r⟩
    simp only [generate_content_direct, hps] at h2
    cases r with
    | error e => simp at h2
    | ok imgs =>
      simp only [Except.ok.injEq, Prod.mk.injEq] at h2
      rw [← h2.1]
      exact headId _
  · cases hlt : lookupTemplate s.templates tid with
    | none => rw [generate_from_template, hlt] at h3; simp at h3
    | some tmpl =>
      simp only [generate_from_template, hlt, Except.ok.injEq, Prod.mk.injEq] at h3
      rw [← h3.1]
      exact headId _
  · cases hlt : lookupTemplate s.templates tid with
    | none => rw [generate_from_template_direct, hlt] at h4; simp at h4
    | some tmpl =>
      rcases hps : processUploads s files with ⟨s', r⟩
      simp only [generate_from_template_direct, hlt, hps] at h4
      cases r with
      | error e => simp at h4
      | ok imgs =>
        simp only [Except.ok.injEq, Prod.mk.injEq] at h4
        rw [← h4.1]
        exact headId _

/-- Generation produced by the C8 witness's direct submission. -/
def g2fix : Generation :=
  { id := 1, prompt := "p", aspectRatio := "1:1",
    sourceImageId := some 4, sourceImages := [fileImg] }

/-- Generation produced by the C8 witness's template application. -/
def g3fix : Generation :=
  { id := 1, prompt := "pp", aspectRatio := "16:9",
    sourceImageId := some 1, sourceImages := [imgA, imgB, imgT] }

/-- Generation produced by the C8 witness's direct template application. -/
def g4fix : Generation :=
  { id := 1, prompt := "pp", aspectRatio := "16:9",
    sourceImageId := some 4, sourceImages := [fileImg, imgT] }

/-- C8 witness: the primary-reference theorem applied to `tmplState`
through all four endpoints. -/
theorem primary_mirrors_head_witness :
    (generate_content tmplState "p" [1, 2] "1:1").2.1.sourceImageId
        = ((generate_content tmplState "p" [1, 2] "1:1").2.1.sourceImages.head?).map
            (fun i => i.id) ∧
    g2fix.sourceImageId = (g2fix.sourceImages.head?).map (fun i => i.id) ∧
    g3fix.sourceImageId = (g3fix.sourceImages.head?).map (fun i => i.id) ∧
    g4fix.sourceImageId = (g4fix.sourceImages.head?).map (fun i => i.id) :=
  primary_mirrors_head tmplState "p" "1:1" [1, 2] [fileF] 7
    g2fix g3fix g4fix
    ["backend/static/uploads/uu.png"]
    ["backend/static/uploads/a.png", "backend/static/uploads/b.png",
     "backend/static/uploads/t.png"]
    ["backend/static/uploads/uu.png", "backend/static/uploads/t.png"]
    rfl rfl rfl

/-- C9: evaluation of the persistence model at the failing input.  The
`generation_inputs` association table persists the same value for the two
supplied orders [imgA, imgB] and [imgB, imgA] even though the orders
differ, so no enumeration of the persisted association can recover the
supplied order: the schema (no position column, no relationship ordering)
cannot represent the order the claim — and the code's own docstrings —
require to be preserved. -/
theorem generation_inputs_unordered :
    generation_inputs 1 [imgA, imgB] = generation_inputs 1 [imgB, imgA] ∧
    (([imgA, imgB] : List UploadedImage) == [imgB, imgA]) = false := by
  constructor
  · show ((([(1, imgA.id), (1, imgB.id)] : List (Nat × Nat))) : Multiset (Nat × Nat))
        = (([(1, imgB.id), (1, imgA.id)] : List (Nat × Nat)) : Multiset (Nat × Nat))
    exact Multiset.coe_eq_coe.mpr (List.Perm.swap _ _ _)
  · decide

/-- C10: when the Generation row is absent by the time the background run
reaches its database update, the run completes (the function is total) and
writes nothing to the generation table — on the success path, the failure
path, and, fully, on the exception path. -/
theorem run_skips_missing_record (s : SysState) (gid : Nat) (p : String)
    (paths : List String) (ar : String) (upload : String → Option String)
    (cm : List ContentPart → Except Unit Response) (name : String)
    (h : lookupGen s.gens gid = none) :
    (generate_image_task s gid p paths ar upload cm name).gens = s.gens ∧
    (cm (composeContent p ar paths upload) = Except.error () →
      generate_image_task s gid p paths ar upload cm name = s) := by
  constructor
  · simp only [generate_image_task]
    cases hcm : cm (composeContent p ar paths upload) with
    | error e => simp [h]
    | ok resp =>
      cases hn : normalize resp with
      | some a => simp [h, hn]
      | none => simp [h, hn]
  · intro hcm
    simp only [generate_image_task, hcm]
    simp [h]

/-- C10 witness: the theorem applied to the empty state (no Generation
rows at all) with a successful model call returning the example
response. -/
theorem run_skips_missing_record_witness :
    (generate_image_task initState 1 "p" [] "1:1" (fun _ => none)
        (fun _ => Except.ok exampleResponse) "u").gens = initState.gens ∧
    ((fun _ => Except.ok exampleResponse : List ContentPart → Except Unit Response)
        (composeContent "p" "1:1" [] (fun _ => none)) = Except.error () →
      generate_image_task initState 1 "p" [] "1:1" (fun _ => none)
        (fun _ => Except.ok exampleResponse) "u" = initState) :=
  run_skips_missing_record initState 1 "p" [] "1:1" (fun _ => none)
    (fun _ => Except.ok exampleResponse) "u" rfl

end BananaArt
